import Mathlib

/-!
Verification of the variant-resolution engine `createVariants`
(src/packages/style/createVariants.ts) of open-sky-dev/opensky-create-class.

The TypeScript function takes a flat configuration object (`VariantOptions`)
mixing the reserved keys `base`, `reset`, `compound` with arbitrary axis
definitions, plus a runtime selection object (`VariantProps`), and returns a
result object holding a merged class string under `classes` together with one
resolved value per declared axis.

Shallow embedding choices:
* JavaScript objects are ordered association lists (`List (String × _)`);
  property lookup is first-match lookup, and object keys are unique, which
  theorems assume through `Nodup` hypotheses where it matters.
* A selection value (`boolean | string | number`) is `PropValue`; an absent /
  `undefined` property is the absence of the key from the list.
* An axis definition value in the spec is `SpecValue`: a plain string
  (boolean-toggle axis), an option map, `null`, or an array (the `compound`
  list, or a malformed axis definition).  Option-map values in the source have
  type `string | undefined | null`; the function only ever consumes them
  through JavaScript truthiness tests and string appends guarded by those
  tests, for which a present `null`/`undefined` value behaves exactly like the
  empty string, so the embedding uses `String` with `""` covering all falsy
  values.
* The result object is `VariantResult`: its `classes` property is a separate
  (total, hence never `undefined`) field, and the per-axis properties are the
  ordered list `entries`, where an entry `(k, none)` is a property present
  with value `undefined`.
-/

namespace CreateVariants

/-- A defined runtime prop value (`boolean | string | number` in
`VariantProps`); an `undefined`/absent prop is modelled by key absence. -/
inductive PropValue where
  | bool (b : Bool)
  | str (s : String)
  | num (n : Int)
deriving DecidableEq

/-- A value stored in the spec object under some key: a plain string, an
option map, `null`, or an array (list of compound rules, each itself an
object from keys to strings). -/
inductive SpecValue where
  | str (s : String)
  | map (m : List (String × String))
  | null
  | arr (rules : List (List (String × String)))
deriving DecidableEq

/-- A resolved per-axis value in the result (`string | boolean | number`);
`undefined` is modelled by `Option ResValue` at the use site. -/
inductive ResValue where
  | str (s : String)
  | bool (b : Bool)
  | num (n : Int)
deriving DecidableEq

/-- The runtime selection object (`VariantProps`). -/
abbrev Selection := List (String × PropValue)

/-- The spec object (`VariantOptions`). -/
abbrev Spec := List (String × SpecValue)

/-- One compound rule: an object from axis names (plus `classes`) to
required values / the fragment. -/
abbrev Rule := List (String × String)

/-- The per-axis part of the result object: key, and resolved value where
`none` models a property set to `undefined`. -/
abbrev Entries := List (String × Option ResValue)

/-- The result object (`VariantResult`): the `classes` string plus the
per-axis entries in insertion order. -/
structure VariantResult where
  classes : String
  entries : Entries
deriving DecidableEq

/-- First-match association lookup: JavaScript property access `o[k]`,
returning `none` for an absent property. -/
def lookupKey (k : String) : List (String × α) → Option α
  | [] => none
  | p :: rest => if p.1 = k then some p.2 else lookupKey k rest

/-- The reserved spec keys that are not axes
(`key !== 'base' && key !== 'reset' && key !== 'compound'` filters). -/
def isReserved (k : String) : Bool :=
  k == "base" || k == "reset" || k == "compound"

/-- `options.base || ''` and `options.reset || ''`: the string stored under
`k`, or the empty string when the key is absent (the source types these keys
as strings, so a non-string value does not occur). -/
def getString (spec : Spec) (k : String) : String :=
  match lookupKey k spec with
  | some (.str s) => s
  | _ => ""

/-- `options.compound` as used by the compound loop: the rule list when
present, otherwise no rules (an absent `compound` is falsy and skips the
loop; an empty array iterates zero times, which is the same). -/
def getCompound (spec : Spec) : List Rule :=
  match lookupKey "compound" spec with
  | some (.arr rs) => rs
  | _ => []

/-- `Object.keys(options).filter(key => key !== 'base' && key !== 'reset'
&& key !== 'compound')`: the declared axis names in spec order. -/
def nonReservedKeys (spec : Spec) : List String :=
  (spec.map Prod.fst).filter (fun k => !isReserved k)

/-- Phase 1 of `createVariants` (lines 106-115): the result starts with one
property per declared axis, each set to `undefined`. -/
def initEntries (spec : Spec) : Entries :=
  (nonReservedKeys spec).map (fun k => (k, none))

/-- `result[k] = v`: overwrite the property `k` of the result object (the
key is already present, having been created in phase 1). -/
def setEntry (es : Entries) (k : String) (v : Option ResValue) : Entries :=
  es.map (fun p => if p.1 = k then (k, v) else p)

/-- The per-axis decision of phase 3 (lines 139-185) for an axis `g` with
definition `gdef`: `none` means the axis is skipped (result entry and class
list untouched); `some (v, of)` means the result entry for `g` is set to `v`
and, when `of = some frag`, `' ' + frag` is appended to the class list.

* string definition (boolean-toggle axis): selected value `true` exactly
  when `props[g] === true`, with the fragment appended; otherwise `false`
  with nothing appended;
* `null` or array definition: skipped (malformed axis);
* option map, string selection `s`: the resolved value is the literal `s`;
  the appended fragment is `m[s]` when that is truthy (a non-empty string),
  otherwise the literal `s` itself;
* option map, non-string selection: nothing happens;
* option map, no selection: when `m._default` is truthy, the default name
  `d` is looked up: a truthy `m[d]` gives resolved value `d` and fragment
  `m[d]`, otherwise resolved value `'_custom'` and fragment `d` itself;
  with no truthy `_default` the axis is skipped. -/
def axisOutcome (props : Selection) (g : String) (gdef : SpecValue) :
    Option (ResValue × Option String) :=
  match gdef with
  | .str frag =>
      if lookupKey g props = some (.bool true) then some (.bool true, some frag)
      else some (.bool false, none)
  | .null => none
  | .arr _ => none
  | .map m =>
      match lookupKey g props with
      | some (.str s) =>
          match lookupKey s m with
          | some frag => if frag = "" then some (.str s, some s) else some (.str s, some frag)
          | none => some (.str s, some s)
      | some _ => none
      | none =>
          match lookupKey "_default" m with
          | some d =>
              if d = "" then none
              else
                match lookupKey d m with
                | some frag =>
                    if frag = "" then some (.str "_custom", some d)
                    else some (.str d, some frag)
                | none => some (.str "_custom", some d)
          | none => none

/-- One iteration of the phase-3 loop over `Object.entries(options)`:
reserved keys are skipped, otherwise `axisOutcome` is applied to the running
result entries and class list. -/
def resolveAxis (props : Selection) (st : Entries × String)
    (axis : String × SpecValue) : Entries × String :=
  if isReserved axis.1 then st
  else
    match axisOutcome props axis.1 axis.2 with
    | none => st
    | some (v, none) => (setEntry st.1 axis.1 (some v), st.2)
    | some (v, some frag) => (setEntry st.1 axis.1 (some v), st.2 ++ " " ++ frag)

/-- Phase 3 (lines 132-185): fold the per-axis loop over the spec, starting
from the phase-1 entries and `classList = options.base || ''`. -/
def resolveAxes (spec : Spec) (props : Selection) : Entries × String :=
  spec.foldl (resolveAxis props) (initEntries spec, getString spec "base")

/-- `compound.classes`: the fragment of a rule, empty when absent. -/
def ruleClasses (r : Rule) : String :=
  match lookupKey "classes" r with
  | some s => s
  | none => ""

/-- The match test of the compound loop (lines 190-195): every key of the
rule other than `classes` must have `result[key] === value`, i.e. the result
entry must be present, defined, and equal as a string. -/
def ruleMatches (es : Entries) (r : Rule) : Bool :=
  r.all (fun p => p.1 == "classes" ||
    decide (lookupKey p.1 es = some (some (.str p.2))))

/-- Phase 4 (lines 188-202): fold over the compound rules in order,
appending `' ' + compound.classes` for each rule that matches and has a
truthy (non-empty) `classes` fragment. -/
def compoundPass (es : Entries) (cl : String) (rules : List Rule) : String :=
  rules.foldl (fun acc r =>
    if ruleMatches es r && !(ruleClasses r == "") then acc ++ " " ++ ruleClasses r
    else acc) cl

/-- `classList.trim()`: drop whitespace characters from both ends of the
string (defined over the character list so that it evaluates inside the
kernel; JavaScript trims the same ASCII whitespace on class strings). -/
def trimString (s : String) : String :=
  ⟨List.reverse (List.dropWhile Char.isWhitespace
    (List.reverse (List.dropWhile Char.isWhitespace s.data)))⟩

/-- `createVariants(options, props)` (lines 104-206).  Phase 2 (lines
117-129): when the property `resetStyles` is present in the selection (with
any value), `classes` is `options.reset || ''` and every axis entry is
overwritten with the sentinel `'_reset'`; otherwise phases 3 and 4 run and
the accumulated class list is trimmed into `classes`.  The embedding is a
total function: no input raises an error. -/
def resolve (spec : Spec) (props : Selection) : VariantResult :=
  if (lookupKey "resetStyles" props).isSome then
    { classes := getString spec "reset"
      entries := (initEntries spec).map (fun p => (p.1, some (.str "_reset"))) }
  else
    { classes := trimString (compoundPass (resolveAxes spec props).1
        (resolveAxes spec props).2 (getCompound spec))
      entries := (resolveAxes spec props).1 }

/-- The spec with its `compound` member removed (drop every entry stored
under the key `compound`). -/
def removeCompound (spec : Spec) : Spec :=
  spec.filter (fun p => !(p.1 == "compound"))

/-- The value an axis step stores for its own key, given the running value:
`axisOutcome` results overwrite the entry, a skip keeps it. -/
def outcomeValue (o : Option (ResValue × Option String)) (cur : Option ResValue) :
    Option ResValue :=
  match o with
  | some (v, _) => some v
  | none => cur

/-- The text the compound pass contributes for a list of (already filtered,
matching) rules: a space and the rule fragment, in order. -/
def concatFrags : List Rule → String
  | [] => ""
  | r :: rs => " " ++ ruleClasses r ++ concatFrags rs

/-- Example 1 of the spec: defaults apply when the selection is empty. -/
example :
    resolve
      [("base", .str "px-4"),
       ("size", .map [("sm", "text-sm"), ("lg", "text-lg"), ("_default", "sm")])]
      [] =
    ⟨"px-4 text-sm", [("size", some (.str "sm"))]⟩ := by decide

/-- Example 2 of the spec: an unregistered option name is used as a raw
fragment. -/
example :
    resolve [("base", .str "btn"), ("variant", .map [("primary", "bg-blue")])]
      [("variant", .str "ghost")] =
    ⟨"btn ghost", [("variant", some (.str "ghost"))]⟩ := by decide

/-- Example 3 of the spec: reset short-circuit. -/
example :
    resolve [("base", .str "btn"), ("reset", .str "p-0"), ("size", .map [("sm", "text-sm")])]
      [("resetStyles", .bool true)] =
    ⟨"p-0", [("size", some (.str "_reset"))]⟩ := by decide

/-- Example 4 of the spec: a compound rule fires on the resolved values. -/
example :
    resolve
      [("base", .str "btn"),
       ("size", .map [("sm", "text-sm"), ("lg", "text-lg")]),
       ("variant", .map [("a", "bg-a"), ("b", "bg-b")]),
       ("compound", .arr [[("size", "lg"), ("variant", "b"), ("classes", "shadow")]])]
      [("size", .str "lg"), ("variant", .str "b")] =
    ⟨"btn text-lg bg-b shadow",
     [("size", some (.str "lg")), ("variant", some (.str "b"))]⟩ := by decide

/-- Example 5 of the spec: a boolean axis selected `false` resolves to
`false` and contributes nothing. -/
example :
    resolve [("base", .str "card"), ("elevated", .str "shadow-lg")]
      [("elevated", .bool false)] =
    ⟨"card", [("elevated", some (.bool false))]⟩ := by decide

/-! ### Infrastructure lemmas about the embedding -/

@[simp] theorem lookupKey_nil {α : Type} (k : String) :
    lookupKey k ([] : List (String × α)) = none := rfl

@[simp] theorem lookupKey_cons {α : Type} (k : String) (p : String × α)
    (l : List (String × α)) :
    lookupKey k (p :: l) = if p.1 = k then some p.2 else lookupKey k l := rfl

theorem lookupKey_map_const {α : Type} (k : String) (ks : List String) (x : α)
    (h : k ∈ ks) : lookupKey k (ks.map (fun a => (a, x))) = some x := by
  induction ks with
  | nil => cases h
  | cons a l ih =>
      rcases List.mem_cons.mp h with h1 | h1
      · simp [h1]
      · by_cases ha : a = k
        · simp [ha]
        · simp [ha, ih h1]

theorem lookupKey_pair_map {α β : Type} (k : String) (f : α → β) :
    ∀ es : List (String × α),
      lookupKey k (es.map (fun p => (p.1, f p.2))) = (lookupKey k es).map f := by
  intro es
  induction es with
  | nil => rfl
  | cons p l ih =>
      by_cases h : p.1 = k
      · simp [h, ih]
      · simp [h, ih]

theorem setEntry_keys (es : Entries) (k : String) (v : Option ResValue) :
    (setEntry es k v).map Prod.fst = es.map Prod.fst := by
  induction es with
  | nil => rfl
  | cons p l ih =>
      by_cases h : p.1 = k
      · simp only [setEntry] at ih ⊢
        simp [h, ih]
      · simp only [setEntry] at ih ⊢
        simp [h, ih]

theorem lookupKey_setEntry_self (es : Entries) (k : String) (v : Option ResValue) :
    lookupKey k (setEntry es k v) = (lookupKey k es).map (fun _ => v) := by
  induction es with
  | nil => rfl
  | cons p l ih =>
      by_cases h : p.1 = k
      · simp only [setEntry] at ih ⊢
        simp [h, ih]
      · simp only [setEntry] at ih ⊢
        simp [h, ih]

theorem lookupKey_setEntry_ne (es : Entries) (j k : String) (v : Option ResValue)
    (h : j ≠ k) : lookupKey j (setEntry es k v) = lookupKey j es := by
  induction es with
  | nil => rfl
  | cons p l ih =>
      by_cases hp : p.1 = k
      · have hkj : ¬ k = j := fun hh => h hh.symm
        have hpj : ¬ p.1 = j := by rw [hp]; exact hkj
        simp only [setEntry] at ih ⊢
        simp [hp, hkj, hpj, ih]
      · by_cases hj : p.1 = j
        · simp only [setEntry] at ih ⊢
          simp [hp, hj, h]
        · simp only [setEntry] at ih ⊢
          simp [hp, hj, ih]

theorem resolveAxis_keys (props : Selection) (st : Entries × String)
    (axis : String × SpecValue) :
    ((resolveAxis props st axis).1).map Prod.fst = st.1.map Prod.fst := by
  unfold resolveAxis
  split
  · rfl
  · split
    · rfl
    · simp [setEntry_keys]
    · simp [setEntry_keys]

theorem resolveAxis_lookup_ne (props : Selection) (st : Entries × String)
    (axis : String × SpecValue) (g : String) (h : axis.1 ≠ g) :
    lookupKey g ((resolveAxis props st axis).1) = lookupKey g st.1 := by
  unfold resolveAxis
  split
  · rfl
  · split
    · rfl
    · simp [lookupKey_setEntry_ne st.1 g axis.1 _ (Ne.symm h)]
    · simp [lookupKey_setEntry_ne st.1 g axis.1 _ (Ne.symm h)]

theorem foldl_resolveAxis_keys (props : Selection) :
    ∀ (l : Spec) (st : Entries × String),
      ((l.foldl (resolveAxis props) st).1).map Prod.fst = st.1.map Prod.fst := by
  intro l
  induction l with
  | nil => intro st; rfl
  | cons a l ih =>
      intro st
      simpa [List.foldl_cons, resolveAxis_keys] using
        (ih (resolveAxis props st a)).trans (resolveAxis_keys props st a)

theorem foldl_resolveAxis_lookup_notmem (props : Selection) (g : String) :
    ∀ (l : Spec) (st : Entries × String), g ∉ l.map Prod.fst →
      lookupKey g ((l.foldl (resolveAxis props) st).1) = lookupKey g st.1 := by
  intro l
  induction l with
  | nil => intro st _; rfl
  | cons a l ih =>
      intro st h
      have h1 : a.1 ≠ g := by
        intro hh; exact h (by simp [hh])
      have h2 : g ∉ l.map Prod.fst := by
        intro hh; exact h (by simp [hh])
      simpa [List.foldl_cons] using
        (ih (resolveAxis props st a) h2).trans (resolveAxis_lookup_ne props st a g h1)

theorem resolveAxis_lookup_self (props : Selection) (st : Entries × String)
    (g : String) (gdef : SpecValue) (cur : Option ResValue)
    (hres : isReserved g = false) (hcur : lookupKey g st.1 = some cur) :
    lookupKey g ((resolveAxis props st (g, gdef)).1) =
      some (outcomeValue (axisOutcome props g gdef) cur) := by
  cases ho : axisOutcome props g gdef with
  | none => simp [resolveAxis, hres, ho, outcomeValue, hcur]
  | some vo =>
      rcases vo with ⟨v, of⟩
      cases of <;>
        simp [resolveAxis, hres, ho, outcomeValue, lookupKey_setEntry_self, hcur]

theorem foldl_entry (props : Selection) :
    ∀ (l : Spec) (st : Entries × String) (g : String) (gdef : SpecValue)
      (cur : Option ResValue),
      (g, gdef) ∈ l → (l.map Prod.fst).Nodup → isReserved g = false →
      lookupKey g st.1 = some cur →
      lookupKey g ((l.foldl (resolveAxis props) st).1) =
        some (outcomeValue (axisOutcome props g gdef) cur) := by
  intro l
  induction l with
  | nil => intro st g gdef cur hmem; cases hmem
  | cons a l ih =>
      intro st g gdef cur hmem hnd hres hcur
      rw [List.map_cons, List.nodup_cons] at hnd
      have hnd1 : a.1 ∉ l.map Prod.fst := hnd.1
      have hnd2 : (l.map Prod.fst).Nodup := hnd.2
      rcases List.mem_cons.mp hmem with h1 | h1
      · subst h1
        have hstep := resolveAxis_lookup_self props st g gdef cur hres hcur
        have hnot : g ∉ l.map Prod.fst := hnd1
        simpa [List.foldl_cons] using
          (foldl_resolveAxis_lookup_notmem props g l
            (resolveAxis props st (g, gdef)) hnot).trans hstep
      · have hag : a.1 ≠ g := by
          intro hh
          exact hnd1 (hh ▸ (List.mem_map_of_mem Prod.fst h1))
        have hstep := resolveAxis_lookup_ne props st a g hag
        simpa [List.foldl_cons] using
          ih (resolveAxis props st a) g gdef cur h1 hnd2 hres (hstep.trans hcur)

theorem initEntries_keys (spec : Spec) :
    (initEntries spec).map Prod.fst = nonReservedKeys spec := by
  unfold initEntries
  generalize nonReservedKeys spec = ks
  induction ks with
  | nil => rfl
  | cons a l ih => simp only [List.map_cons, ih]

theorem mem_nonReservedKeys (spec : Spec) (g : String)
    (h : g ∈ spec.map Prod.fst) (hres : isReserved g = false) :
    g ∈ nonReservedKeys spec :=
  List.mem_filter.mpr ⟨h, by simp [hres]⟩

theorem initEntries_lookup (spec : Spec) (g : String)
    (h : g ∈ spec.map Prod.fst) (hres : isReserved g = false) :
    lookupKey g (initEntries spec) = some none :=
  lookupKey_map_const g (nonReservedKeys spec) none (mem_nonReservedKeys spec g h hres)

/-- The central lemma tying one axis of the spec to its entry in the result:
outside reset mode, with the unique-keys invariant of JavaScript objects,
the result entry of a declared non-reserved axis is `undefined` when the
axis is skipped and otherwise the value chosen by `axisOutcome`. -/
theorem resolve_entry (spec : Spec) (props : Selection) (g : String)
    (gdef : SpecValue) (hnd : (spec.map Prod.fst).Nodup)
    (hmem : (g, gdef) ∈ spec) (hres : isReserved g = false)
    (hnr : lookupKey "resetStyles" props = none) :
    lookupKey g (resolve spec props).entries =
      some (outcomeValue (axisOutcome props g gdef) none) := by
  have hmemk : g ∈ spec.map Prod.fst := List.mem_map_of_mem Prod.fst hmem
  have hinit : lookupKey g (initEntries spec) = some none :=
    initEntries_lookup spec g hmemk hres
  unfold resolve
  simp only [hnr, Option.isSome_none, Bool.false_eq_true, if_false]
  exact foldl_entry props spec (initEntries spec, getString spec "base")
    g gdef none hmem hnd hres hinit

theorem resolveAxis_reserved (props : Selection) (st : Entries × String)
    (axis : String × SpecValue) (h : isReserved axis.1 = true) :
    resolveAxis props st axis = st := by
  simp [resolveAxis, h]

theorem nonReservedKeys_removeCompound (spec : Spec) :
    nonReservedKeys (removeCompound spec) = nonReservedKeys spec := by
  unfold nonReservedKeys removeCompound
  rw [List.filter_map, List.filter_filter, List.filter_map]
  apply congrArg (List.map Prod.fst)
  apply List.filter_congr
  intro a _
  by_cases ha : a.1 = "compound"
  · have h1 : isReserved a.1 = true := by rw [ha]; decide
    simp [Function.comp, h1]
  · have h2 : (a.1 == "compound") = false := beq_eq_false_iff_ne.mpr ha
    by_cases hb : isReserved a.1 = true
    · simp [Function.comp, hb]
    · simp only [Bool.not_eq_true] at hb
      simp [Function.comp, hb, h2]

theorem lookupKey_removeCompound (spec : Spec) (k : String) (h : k ≠ "compound") :
    lookupKey k (removeCompound spec) = lookupKey k spec := by
  induction spec with
  | nil => rfl
  | cons p l ih =>
      by_cases hp : p.1 = "compound"
      · have hpk : ¬ p.1 = k := by rw [hp]; exact fun hh => h hh.symm
        have hbeq : (p.1 == "compound") = true := beq_iff_eq.mpr hp
        have hfil : removeCompound (p :: l) = removeCompound l := by
          simp [removeCompound, List.filter_cons, hbeq]
        rw [hfil, ih]
        simp [hpk]
      · have hbeq : (p.1 == "compound") = false := beq_eq_false_iff_ne.mpr hp
        have hfil : removeCompound (p :: l) = p :: removeCompound l := by
          simp [removeCompound, List.filter_cons, hbeq]
        rw [hfil]
        by_cases hk : p.1 = k
        · simp [hk]
        · simp only [lookupKey_cons, hk, if_false]
          exact ih

theorem foldl_removeCompound (props : Selection) :
    ∀ (l : Spec) (st : Entries × String),
      (removeCompound l).foldl (resolveAxis props) st = l.foldl (resolveAxis props) st := by
  intro l
  induction l with
  | nil => intro st; rfl
  | cons p l ih =>
      intro st
      by_cases hp : p.1 = "compound"
      · have hres : isReserved p.1 = true := by rw [hp]; decide
        have hbeq : (p.1 == "compound") = true := beq_iff_eq.mpr hp
        have hfil : removeCompound (p :: l) = removeCompound l := by
          simp [removeCompound, List.filter_cons, hbeq]
        rw [hfil, ih st, List.foldl_cons, resolveAxis_reserved props st p hres]
      · have hbeq : (p.1 == "compound") = false := beq_eq_false_iff_ne.mpr hp
        have hfil : removeCompound (p :: l) = p :: removeCompound l := by
          simp [removeCompound, List.filter_cons, hbeq]
        rw [hfil, List.foldl_cons, List.foldl_cons, ih (resolveAxis props st p)]

theorem compoundPass_eq (es : Entries) :
    ∀ (rules : List Rule) (cl : String),
      compoundPass es cl rules =
        cl ++ concatFrags (rules.filter fun r =>
          ruleMatches es r && !(ruleClasses r == "")) := by
  intro rules
  induction rules with
  | nil => intro cl; simp [compoundPass, concatFrags]
  | cons r rs ih =>
      intro cl
      have hstep : compoundPass es cl (r :: rs) =
          compoundPass es
            (if ruleMatches es r && !(ruleClasses r == "") then cl ++ " " ++ ruleClasses r
             else cl) rs := rfl
      rw [hstep]
      by_cases hc : (ruleMatches es r && !(ruleClasses r == "")) = true
      · have hfil : List.filter (fun q => ruleMatches es q && !(ruleClasses q == "")) (r :: rs) =
            r :: List.filter (fun q => ruleMatches es q && !(ruleClasses q == "")) rs := by
          simp [List.filter_cons, hc]
        rw [if_pos hc, ih, hfil]
        simp [concatFrags, String.append_assoc]
      · have hcf : (ruleMatches es r && !(ruleClasses r == "")) = false := by
          simpa using hc
        have hfil : List.filter (fun q => ruleMatches es q && !(ruleClasses q == "")) (r :: rs) =
            List.filter (fun q => ruleMatches es q && !(ruleClasses q == "")) rs := by
          simp [List.filter_cons, hcf]
        rw [if_neg hc, ih, hfil]

/-! ### Claim theorems -/

/-- C1: for every spec and every selection containing the key `resetStyles`
(with any value, including `false`), `resolve` returns a result whose
`classes` equals the spec's `reset` fragment (`getString spec "reset"`,
which is the empty string when the spec has no `reset`) and in which every
declared axis entry equals the sentinel `'_reset'`, regardless of any other
selection values; base, per-axis and compound fragments contribute
nothing. -/
theorem claim1_reset_short_circuit (spec : Spec) (props : Selection)
    (h : (lookupKey "resetStyles" props).isSome = true) :
    (resolve spec props).classes = getString spec "reset" ∧
    ∀ p ∈ (resolve spec props).entries, p.2 = some (ResValue.str "_reset") := by
  unfold resolve
  rw [if_pos h]
  refine ⟨rfl, ?_⟩
  intro p hp
  rcases List.mem_map.mp hp with ⟨q, _, rfl⟩
  rfl

/-- Witness for C1: a spec with base, reset and an axis, and a selection
holding `resetStyles: false` together with an ordinary axis selection. -/
theorem claim1_reset_short_circuit_witness :
    (resolve
        [("base", SpecValue.str "px-4"), ("reset", SpecValue.str "p-0"),
         ("size", SpecValue.map [("sm", "text-sm")])]
        [("resetStyles", PropValue.bool false), ("size", PropValue.str "sm")]).classes =
      getString
        [("base", SpecValue.str "px-4"), ("reset", SpecValue.str "p-0"),
         ("size", SpecValue.map [("sm", "text-sm")])] "reset" ∧
    ∀ p ∈ (resolve
        [("base", SpecValue.str "px-4"), ("reset", SpecValue.str "p-0"),
         ("size", SpecValue.map [("sm", "text-sm")])]
        [("resetStyles", PropValue.bool false), ("size", PropValue.str "sm")]).entries,
      p.2 = some (ResValue.str "_reset") :=
  claim1_reset_short_circuit
    [("base", SpecValue.str "px-4"), ("reset", SpecValue.str "p-0"),
     ("size", SpecValue.map [("sm", "text-sm")])]
    [("resetStyles", PropValue.bool false), ("size", PropValue.str "sm")] (by decide)

/-- C2: for every spec (whose keys are unique, as JavaScript object keys
are) and every selection, the result's axis entries are exactly the keys
declared in the spec other than `base`, `reset` and `compound`, in spec
order, with exactly one entry per such key; `classes` is always present
(it is a total `String` field of `VariantResult`, never `undefined`). -/
theorem claim2_result_shape (spec : Spec) (props : Selection)
    (hnd : (spec.map Prod.fst).Nodup) :
    (resolve spec props).entries.map Prod.fst = nonReservedKeys spec ∧
    ∀ k ∈ nonReservedKeys spec,
      ((resolve spec props).entries.map Prod.fst).count k = 1 := by
  have hkeys : (resolve spec props).entries.map Prod.fst = nonReservedKeys spec := by
    unfold resolve
    by_cases h : (lookupKey "resetStyles" props).isSome = true
    · rw [if_pos h]
      show ((initEntries spec).map
          (fun p => (p.1, some (ResValue.str "_reset")))).map Prod.fst =
        nonReservedKeys spec
      rw [show ((initEntries spec).map
            (fun p => (p.1, some (ResValue.str "_reset")))).map Prod.fst =
          (initEntries spec).map Prod.fst from by rw [List.map_map]; rfl]
      exact initEntries_keys spec
    · rw [if_neg h]
      show ((resolveAxes spec props).1).map Prod.fst = nonReservedKeys spec
      unfold resolveAxes
      rw [foldl_resolveAxis_keys]
      exact initEntries_keys spec
  refine ⟨hkeys, ?_⟩
  intro k hk
  rw [hkeys]
  exact List.count_eq_one_of_mem (List.Nodup.filter _ hnd) hk

/-- Witness for C2 at a concrete spec with all three reserved keys and two
axes. -/
theorem claim2_result_shape_witness :
    (resolve
        [("base", SpecValue.str "btn"), ("reset", SpecValue.str "p-0"),
         ("size", SpecValue.map [("sm", "text-sm")]), ("elevated", SpecValue.str "shadow"),
         ("compound", SpecValue.arr [])]
        [("size", PropValue.str "sm")]).entries.map Prod.fst =
      nonReservedKeys
        [("base", SpecValue.str "btn"), ("reset", SpecValue.str "p-0"),
         ("size", SpecValue.map [("sm", "text-sm")]), ("elevated", SpecValue.str "shadow"),
         ("compound", SpecValue.arr [])] ∧
    ∀ k ∈ nonReservedKeys
        [("base", SpecValue.str "btn"), ("reset", SpecValue.str "p-0"),
         ("size", SpecValue.map [("sm", "text-sm")]), ("elevated", SpecValue.str "shadow"),
         ("compound", SpecValue.arr [])],
      ((resolve
        [("base", SpecValue.str "btn"), ("reset", SpecValue.str "p-0"),
         ("size", SpecValue.map [("sm", "text-sm")]), ("elevated", SpecValue.str "shadow"),
         ("compound", SpecValue.arr [])]
        [("size", PropValue.str "sm")]).entries.map Prod.fst).count k = 1 :=
  claim2_result_shape
    [("base", SpecValue.str "btn"), ("reset", SpecValue.str "p-0"),
     ("size", SpecValue.map [("sm", "text-sm")]), ("elevated", SpecValue.str "shadow"),
     ("compound", SpecValue.arr [])]
    [("size", PropValue.str "sm")] (by decide)

/-- C7: compound rules only change the accumulated `classes` text and never
any per-axis resolved value: for every spec and every selection, `resolve`
on the spec agrees with `resolve` on the spec with its `compound` member
removed on every key except `classes` (the axis entries are identical). -/
theorem claim7_compound_frame (spec : Spec) (props : Selection) :
    (resolve spec props).entries = (resolve (removeCompound spec) props).entries := by
  have hinit : initEntries (removeCompound spec) = initEntries spec := by
    unfold initEntries
    rw [nonReservedKeys_removeCompound]
  have hbase : getString (removeCompound spec) "base" = getString spec "base" := by
    unfold getString
    rw [lookupKey_removeCompound spec "base" (by decide)]
  unfold resolve
  by_cases h : (lookupKey "resetStyles" props).isSome = true
  · rw [if_pos h, if_pos h, hinit]
  · rw [if_neg h, if_neg h]
    show (resolveAxes spec props).1 = (resolveAxes (removeCompound spec) props).1
    unfold resolveAxes
    rw [hinit, hbase, foldl_removeCompound]

/-- C8: `resolve` is a total function (the embedding returns a result for
every spec and selection; no error is raised), and an axis whose definition
is neither a string nor a plain option map — `null` or an array — is
silently skipped: the per-axis step leaves the state untouched, the axis
entry stays `undefined`, and no fragment is contributed to `classes`. -/
theorem claim8_malformed_axis_skipped (spec : Spec) (props : Selection)
    (g : String) (rs : List Rule)
    (hnd : (spec.map Prod.fst).Nodup) (hres : isReserved g = false)
    (hnr : lookupKey "resetStyles" props = none) :
    (∀ st : Entries × String, resolveAxis props st (g, SpecValue.null) = st) ∧
    (∀ st : Entries × String, resolveAxis props st (g, SpecValue.arr rs) = st) ∧
    ((g, SpecValue.null) ∈ spec →
      lookupKey g (resolve spec props).entries = some none) ∧
    ((g, SpecValue.arr rs) ∈ spec →
      lookupKey g (resolve spec props).entries = some none) := by
  refine ⟨?_, ?_, ?_, ?_⟩
  · intro st
    simp [resolveAxis, hres, axisOutcome]
  · intro st
    simp [resolveAxis, hres, axisOutcome]
  · intro hmem
    simpa [axisOutcome, outcomeValue] using
      resolve_entry spec props g SpecValue.null hnd hmem hres hnr
  · intro hmem
    simpa [axisOutcome, outcomeValue] using
      resolve_entry spec props g (SpecValue.arr rs) hnd hmem hres hnr

/-- Witness for C8: a spec with a `null` axis and an array-valued axis next
to an ordinary one. -/
theorem claim8_malformed_axis_skipped_witness :
    (∀ st : Entries × String,
      resolveAxis [("size", PropValue.str "sm")] st ("bad", SpecValue.null) = st) ∧
    (∀ st : Entries × String,
      resolveAxis [("size", PropValue.str "sm")] st
        ("bad", SpecValue.arr [[("classes", "x")]]) = st) ∧
    (("bad", SpecValue.null) ∈
        [("base", SpecValue.str "btn"), ("bad", SpecValue.null),
         ("size", SpecValue.map [("sm", "text-sm")])] →
      lookupKey "bad"
        (resolve
          [("base", SpecValue.str "btn"), ("bad", SpecValue.null),
           ("size", SpecValue.map [("sm", "text-sm")])]
          [("size", PropValue.str "sm")]).entries = some none) ∧
    (("bad", SpecValue.arr [[("classes", "x")]]) ∈
        [("base", SpecValue.str "btn"), ("bad", SpecValue.null),
         ("size", SpecValue.map [("sm", "text-sm")])] →
      lookupKey "bad"
        (resolve
          [("base", SpecValue.str "btn"), ("bad", SpecValue.null),
           ("size", SpecValue.map [("sm", "text-sm")])]
          [("size", PropValue.str "sm")]).entries = some none) :=
  claim8_malformed_axis_skipped
    [("base", SpecValue.str "btn"), ("bad", SpecValue.null),
     ("size", SpecValue.map [("sm", "text-sm")])]
    [("size", PropValue.str "sm")] "bad" [[("classes", "x")]]
    (by decide) (by decide) (by decide)

/-- C9: if a spec declares a non-reserved axis literally named
`resetStyles`, every selection giving that axis any value triggers the
reset short-circuit: all axes, including `resetStyles` itself, resolve to
the sentinel `'_reset'` and `classes` is the reset fragment, so such an
axis can never be resolved as an ordinary boolean or option-map axis. -/
theorem claim9_resetStyles_axis_shadowed (spec : Spec) (props : Selection)
    (v : PropValue) (hmem : "resetStyles" ∈ spec.map Prod.fst)
    (hsel : lookupKey "resetStyles" props = some v) :
    lookupKey "resetStyles" (resolve spec props).entries =
      some (some (ResValue.str "_reset")) ∧
    (∀ p ∈ (resolve spec props).entries, p.2 = some (ResValue.str "_reset")) ∧
    (resolve spec props).classes = getString spec "reset" := by
  have hs : (lookupKey "resetStyles" props).isSome = true := by
    rw [hsel]; rfl
  unfold resolve
  rw [if_pos hs]
  refine ⟨?_, ?_, rfl⟩
  · have hpm := lookupKey_pair_map (α := Option ResValue) (β := Option ResValue)
      "resetStyles" (fun _ => some (ResValue.str "_reset")) (initEntries spec)
    rw [hpm, initEntries_lookup spec "resetStyles" hmem (by decide)]
    rfl
  · intro p hp
    rcases List.mem_map.mp hp with ⟨q, _, rfl⟩
    rfl

/-- Witness for C9: an option-map axis literally named `resetStyles`,
selected with an ordinary option name, is still forced to `'_reset'`. -/
theorem claim9_resetStyles_axis_shadowed_witness :
    lookupKey "resetStyles"
      (resolve
        [("base", SpecValue.str "btn"),
         ("resetStyles", SpecValue.map [("on", "reset-on")])]
        [("resetStyles", PropValue.str "on")]).entries =
      some (some (ResValue.str "_reset")) ∧
    (∀ p ∈ (resolve
        [("base", SpecValue.str "btn"),
         ("resetStyles", SpecValue.map [("on", "reset-on")])]
        [("resetStyles", PropValue.str "on")]).entries,
      p.2 = some (ResValue.str "_reset")) ∧
    (resolve
        [("base", SpecValue.str "btn"),
         ("resetStyles", SpecValue.map [("on", "reset-on")])]
        [("resetStyles", PropValue.str "on")]).classes =
      getString
        [("base", SpecValue.str "btn"),
         ("resetStyles", SpecValue.map [("on", "reset-on")])] "reset" :=
  claim9_resetStyles_axis_shadowed
    [("base", SpecValue.str "btn"), ("resetStyles", SpecValue.map [("on", "reset-on")])]
    [("resetStyles", PropValue.str "on")] (PropValue.str "on") (by decide) (by decide)

/-- C3: for every option-map axis and every selection giving it a string
value `s` (outside reset mode), the resolved value of the axis is the
literal string `s`; the class fragment the axis contributes is the map's
fragment at key `s` when that is a non-empty string and otherwise `s`
itself; a non-string selection value (boolean or number) leaves the axis
`undefined`.  The concrete example of the claim evaluates as stated. -/
theorem claim3_option_axis_selection (spec : Spec) (props : Selection)
    (g s : String) (m : List (String × String))
    (hnd : (spec.map Prod.fst).Nodup) (hmem : (g, SpecValue.map m) ∈ spec)
    (hres : isReserved g = false) (hnr : lookupKey "resetStyles" props = none) :
    (lookupKey g props = some (PropValue.str s) →
      lookupKey g (resolve spec props).entries = some (some (ResValue.str s)) ∧
      (∀ frag, lookupKey s m = some frag → frag ≠ "" →
        axisOutcome props g (SpecValue.map m) =
          some (ResValue.str s, some frag)) ∧
      (lookupKey s m = none ∨ lookupKey s m = some "" →
        axisOutcome props g (SpecValue.map m) =
          some (ResValue.str s, some s))) ∧
    (∀ b : Bool, lookupKey g props = some (PropValue.bool b) →
      lookupKey g (resolve spec props).entries = some none) ∧
    (∀ n : Int, lookupKey g props = some (PropValue.num n) →
      lookupKey g (resolve spec props).entries = some none) ∧
    resolve [("base", SpecValue.str "btn"),
        ("variant", SpecValue.map [("primary", "bg-blue")])]
        [("variant", PropValue.str "ghost")] =
      ⟨"btn ghost", [("variant", some (ResValue.str "ghost"))]⟩ := by
  refine ⟨?_, ?_, ?_, by decide⟩
  · intro hp
    refine ⟨?_, ?_, ?_⟩
    · rw [resolve_entry spec props g (SpecValue.map m) hnd hmem hres hnr]
      cases hm : lookupKey s m with
      | none => simp [axisOutcome, hp, hm, outcomeValue]
      | some frag =>
          by_cases hf : frag = ""
          · simp [axisOutcome, hp, hm, hf, outcomeValue]
          · simp [axisOutcome, hp, hm, hf, outcomeValue]
    · intro frag hm hf
      simp [axisOutcome, hp, hm, hf]
    · intro hm
      rcases hm with hm | hm
      · simp [axisOutcome, hp, hm]
      · simp [axisOutcome, hp, hm]
  · intro b hp
    rw [resolve_entry spec props g (SpecValue.map m) hnd hmem hres hnr]
    simp [axisOutcome, hp, outcomeValue]
  · intro n hp
    rw [resolve_entry spec props g (SpecValue.map m) hnd hmem hres hnr]
    simp [axisOutcome, hp, outcomeValue]

/-- Witness for C3 at the claim's own example: spec
`{base:'btn', variant:{primary:'bg-blue'}}`, selection `{variant:'ghost'}`. -/
theorem claim3_option_axis_selection_witness :
    (lookupKey "variant" [("variant", PropValue.str "ghost")] =
        some (PropValue.str "ghost") →
      lookupKey "variant"
        (resolve [("base", SpecValue.str "btn"),
            ("variant", SpecValue.map [("primary", "bg-blue")])]
          [("variant", PropValue.str "ghost")]).entries =
        some (some (ResValue.str "ghost")) ∧
      (∀ frag, lookupKey "ghost" [("primary", "bg-blue")] = some frag → frag ≠ "" →
        axisOutcome [("variant", PropValue.str "ghost")] "variant"
            (SpecValue.map [("primary", "bg-blue")]) =
          some (ResValue.str "ghost", some frag)) ∧
      (lookupKey "ghost" [("primary", "bg-blue")] = none ∨
          lookupKey "ghost" [("primary", "bg-blue")] = some "" →
        axisOutcome [("variant", PropValue.str "ghost")] "variant"
            (SpecValue.map [("primary", "bg-blue")]) =
          some (ResValue.str "ghost", some "ghost"))) ∧
    (∀ b : Bool, lookupKey "variant" [("variant", PropValue.str "ghost")] =
        some (PropValue.bool b) →
      lookupKey "variant"
        (resolve [("base", SpecValue.str "btn"),
            ("variant", SpecValue.map [("primary", "bg-blue")])]
          [("variant", PropValue.str "ghost")]).entries = some none) ∧
    (∀ n : Int, lookupKey "variant" [("variant", PropValue.str "ghost")] =
        some (PropValue.num n) →
      lookupKey "variant"
        (resolve [("base", SpecValue.str "btn"),
            ("variant", SpecValue.map [("primary", "bg-blue")])]
          [("variant", PropValue.str "ghost")]).entries = some none) ∧
    resolve [("base", SpecValue.str "btn"),
        ("variant", SpecValue.map [("primary", "bg-blue")])]
        [("variant", PropValue.str "ghost")] =
      ⟨"btn ghost", [("variant", some (ResValue.str "ghost"))]⟩ :=
  claim3_option_axis_selection
    [("base", SpecValue.str "btn"), ("variant", SpecValue.map [("primary", "bg-blue")])]
    [("variant", PropValue.str "ghost")] "variant" "ghost" [("primary", "bg-blue")]
    (by decide) (by decide) (by decide) (by decide)

/-- C4 counterexample: the claim quantifies over every option-map axis
"with a declared `_default`", but the source guards the default branch with
a truthiness test (`else if (groupOptions._default)`), so an axis declaring
`_default: ''` is skipped entirely: with spec `{size:{_default:''}}` and
the empty selection the axis stays `undefined` and nothing is appended,
while the claim requires the sentinel `'_custom'` and the raw default
string to be appended. -/
theorem claim4_counterexample :
    resolve [("size", SpecValue.map [("_default", "")])] [] =
      ⟨"", [("size", none)]⟩ ∧
    lookupKey "size"
        (resolve [("size", SpecValue.map [("_default", "")])] []).entries ≠
      some (some (ResValue.str "_custom")) := by decide

/-- C4 as amended: for every option-map axis whose declared `_default` is a
non-empty string and every selection providing no value for the axis
(outside reset mode): if the option map holds a non-empty fragment under
the default name, the axis resolves to the default name and that fragment
is appended; otherwise the axis resolves to the sentinel `'_custom'` and
the raw default string itself is appended.  The concrete example of the
claim evaluates as stated. -/
theorem claim4_default_resolution (spec : Spec) (props : Selection)
    (g d : String) (m : List (String × String))
    (hnd : (spec.map Prod.fst).Nodup) (hmem : (g, SpecValue.map m) ∈ spec)
    (hres : isReserved g = false) (hnr : lookupKey "resetStyles" props = none)
    (hp : lookupKey g props = none)
    (hd : lookupKey "_default" m = some d) (hdne : d ≠ "") :
    (∀ frag, lookupKey d m = some frag → frag ≠ "" →
      axisOutcome props g (SpecValue.map m) = some (ResValue.str d, some frag) ∧
      lookupKey g (resolve spec props).entries = some (some (ResValue.str d))) ∧
    (lookupKey d m = none ∨ lookupKey d m = some "" →
      axisOutcome props g (SpecValue.map m) =
        some (ResValue.str "_custom", some d) ∧
      lookupKey g (resolve spec props).entries =
        some (some (ResValue.str "_custom"))) ∧
    resolve [("base", SpecValue.str "px-4"),
        ("size", SpecValue.map
          [("sm", "text-sm"), ("lg", "text-lg"), ("_default", "sm")])] [] =
      ⟨"px-4 text-sm", [("size", some (ResValue.str "sm"))]⟩ := by
  refine ⟨?_, ?_, by decide⟩
  · intro frag hm hf
    refine ⟨by simp [axisOutcome, hp, hd, hdne, hm, hf], ?_⟩
    rw [resolve_entry spec props g (SpecValue.map m) hnd hmem hres hnr]
    simp [axisOutcome, hp, hd, hdne, hm, hf, outcomeValue]
  · intro hm
    rcases hm with hm | hm
    · refine ⟨by simp [axisOutcome, hp, hd, hdne, hm], ?_⟩
      rw [resolve_entry spec props g (SpecValue.map m) hnd hmem hres hnr]
      simp [axisOutcome, hp, hd, hdne, hm, outcomeValue]
    · refine ⟨by simp [axisOutcome, hp, hd, hdne, hm], ?_⟩
      rw [resolve_entry spec props g (SpecValue.map m) hnd hmem hres hnr]
      simp [axisOutcome, hp, hd, hdne, hm, outcomeValue]

/-- Witness for the amended C4 at the claim's own example: spec
`{base:'px-4', size:{sm:'text-sm', lg:'text-lg', _default:'sm'}}`, empty
selection. -/
theorem claim4_default_resolution_witness :
    (∀ frag, lookupKey "sm"
          [("sm", "text-sm"), ("lg", "text-lg"), ("_default", "sm")] = some frag →
        frag ≠ "" →
      axisOutcome [] "size" (SpecValue.map
          [("sm", "text-sm"), ("lg", "text-lg"), ("_default", "sm")]) =
        some (ResValue.str "sm", some frag) ∧
      lookupKey "size"
        (resolve [("base", SpecValue.str "px-4"),
            ("size", SpecValue.map
              [("sm", "text-sm"), ("lg", "text-lg"), ("_default", "sm")])] []).entries =
        some (some (ResValue.str "sm"))) ∧
    (lookupKey "sm" [("sm", "text-sm"), ("lg", "text-lg"), ("_default", "sm")] = none ∨
        lookupKey "sm" [("sm", "text-sm"), ("lg", "text-lg"), ("_default", "sm")] =
          some "" →
      axisOutcome [] "size" (SpecValue.map
          [("sm", "text-sm"), ("lg", "text-lg"), ("_default", "sm")]) =
        some (ResValue.str "_custom", some "sm") ∧
      lookupKey "size"
        (resolve [("base", SpecValue.str "px-4"),
            ("size", SpecValue.map
              [("sm", "text-sm"), ("lg", "text-lg"), ("_default", "sm")])] []).entries =
        some (some (ResValue.str "_custom"))) ∧
    resolve [("base", SpecValue.str "px-4"),
        ("size", SpecValue.map
          [("sm", "text-sm"), ("lg", "text-lg"), ("_default", "sm")])] [] =
      ⟨"px-4 text-sm", [("size", some (ResValue.str "sm"))]⟩ :=
  claim4_default_resolution
    [("base", SpecValue.str "px-4"),
     ("size", SpecValue.map [("sm", "text-sm"), ("lg", "text-lg"), ("_default", "sm")])]
    [] "size" "sm" [("sm", "text-sm"), ("lg", "text-lg"), ("_default", "sm")]
    (by decide) (by decide) (by decide) (by decide) (by decide) (by decide) (by decide)

/-- C6 counterexample: the claim quantifies over every selection, but a
selection containing `resetStyles` overwrites a boolean axis with the
string sentinel `'_reset'`: with spec `{elevated:'shadow-lg'}` and
selection `{resetStyles:true}` the axis resolves to the string `'_reset'`,
which is neither `true` nor `false`. -/
theorem claim6_counterexample :
    (resolve [("elevated", SpecValue.str "shadow-lg")]
        [("resetStyles", PropValue.bool true)]).entries =
      [("elevated", some (ResValue.str "_reset"))] ∧
    (∀ b : Bool, ResValue.str "_reset" ≠ ResValue.bool b) := by decide

/-- C6 as amended: for every spec with a boolean axis (one whose definition
is a plain string) and every selection NOT containing `resetStyles`, the
resolved value of that axis is always exactly a boolean, `true` exactly
when the selection value for the axis is the boolean `true` and `false`
for any other selection value or no value. -/
theorem claim6_boolean_axis_total (spec : Spec) (props : Selection)
    (g frag : String) (hnd : (spec.map Prod.fst).Nodup)
    (hmem : (g, SpecValue.str frag) ∈ spec) (hres : isReserved g = false)
    (hnr : lookupKey "resetStyles" props = none) :
    lookupKey g (resolve spec props).entries =
      some (some (ResValue.bool
        (decide (lookupKey g props = some (PropValue.bool true))))) := by
  rw [resolve_entry spec props g (SpecValue.str frag) hnd hmem hres hnr]
  by_cases hp : lookupKey g props = some (PropValue.bool true)
  · simp [axisOutcome, hp, outcomeValue]
  · simp [axisOutcome, hp, outcomeValue]

/-- Witness for the amended C6: a boolean axis selected with a string value
resolves to `false`. -/
theorem claim6_boolean_axis_total_witness :
    lookupKey "elevated"
      (resolve [("base", SpecValue.str "card"), ("elevated", SpecValue.str "shadow-lg")]
        [("elevated", PropValue.str "yes")]).entries =
      some (some (ResValue.bool
        (decide (lookupKey "elevated" [("elevated", PropValue.str "yes")] =
          some (PropValue.bool true))))) :=
  claim6_boolean_axis_total
    [("base", SpecValue.str "card"), ("elevated", SpecValue.str "shadow-lg")]
    [("elevated", PropValue.str "yes")] "elevated" "shadow-lg"
    (by decide) (by decide) (by decide) (by decide)

/-- C10 counterexample: the claim states the fragment appended for a
selection value `'_default'` is the value stored under `_default` itself,
but the source appends it only when it is truthy; with spec
`{base:'btn', v:{_default:''}}` and selection `{v:'_default'}` the stored
value is the empty string, the truthiness test fails, and the literal
selection string `'_default'` is appended instead, giving classes
`'btn _default'` rather than `'btn'`. -/
theorem claim10_counterexample :
    resolve [("base", SpecValue.str "btn"), ("v", SpecValue.map [("_default", "")])]
        [("v", PropValue.str "_default")] =
      ⟨"btn _default", [("v", some (ResValue.str "_default"))]⟩ ∧
    ("btn _default" : String) ≠ "btn" := by decide

/-- C10 as amended: if the selection value for an option-map axis is the
literal string `'_default'` and the axis declares a non-empty `_default`
entry `d`, the axis resolves to the literal string `'_default'` and the
fragment appended is `d` itself (typically an option name), not the
fragment of the option that `d` names.  The concrete example shows `'sm'`
(the stored default value), not `'text-sm'` (the fragment of option `sm`),
being appended. -/
theorem claim10_default_literal_selection (spec : Spec) (props : Selection)
    (g d : String) (m : List (String × String))
    (hnd : (spec.map Prod.fst).Nodup) (hmem : (g, SpecValue.map m) ∈ spec)
    (hres : isReserved g = false) (hnr : lookupKey "resetStyles" props = none)
    (hp : lookupKey g props = some (PropValue.str "_default"))
    (hd : lookupKey "_default" m = some d) (hdne : d ≠ "") :
    axisOutcome props g (SpecValue.map m) =
      some (ResValue.str "_default", some d) ∧
    lookupKey g (resolve spec props).entries =
      some (some (ResValue.str "_default")) ∧
    resolve [("base", SpecValue.str "btn"),
        ("size", SpecValue.map [("sm", "text-sm"), ("_default", "sm")])]
        [("size", PropValue.str "_default")] =
      ⟨"btn sm", [("size", some (ResValue.str "_default"))]⟩ := by
  refine ⟨by simp [axisOutcome, hp, hd, hdne], ?_, by decide⟩
  rw [resolve_entry spec props g (SpecValue.map m) hnd hmem hres hnr]
  simp [axisOutcome, hp, hd, hdne, outcomeValue]

/-- Witness for the amended C10 at the concrete example spec
`{base:'btn', size:{sm:'text-sm', _default:'sm'}}`,
selection `{size:'_default'}`. -/
theorem claim10_default_literal_selection_witness :
    axisOutcome [("size", PropValue.str "_default")] "size"
        (SpecValue.map [("sm", "text-sm"), ("_default", "sm")]) =
      some (ResValue.str "_default", some "sm") ∧
    lookupKey "size"
      (resolve [("base", SpecValue.str "btn"),
          ("size", SpecValue.map [("sm", "text-sm"), ("_default", "sm")])]
        [("size", PropValue.str "_default")]).entries =
      some (some (ResValue.str "_default")) ∧
    resolve [("base", SpecValue.str "btn"),
        ("size", SpecValue.map [("sm", "text-sm"), ("_default", "sm")])]
        [("size", PropValue.str "_default")] =
      ⟨"btn sm", [("size", some (ResValue.str "_default"))]⟩ :=
  claim10_default_literal_selection
    [("base", SpecValue.str "btn"),
     ("size", SpecValue.map [("sm", "text-sm"), ("_default", "sm")])]
    [("size", PropValue.str "_default")] "size" "sm"
    [("sm", "text-sm"), ("_default", "sm")]
    (by decide) (by decide) (by decide) (by decide) (by decide) (by decide) (by decide)

/-- C5: outside reset mode, a compound rule matches iff for every key of
the rule other than `classes` the already-resolved value for that axis
equals the rule's required value exactly (present, defined, string-equal);
`classes` is the phase-3 text followed by the fragments of the matching
rules in declaration order (later matching rules append after earlier
ones), then trimmed.  The concrete example of the claim evaluates as
stated. -/
theorem claim5_compound_pass (spec : Spec) (props : Selection)
    (hnr : lookupKey "resetStyles" props = none) :
    (∀ (es : Entries) (r : Rule), ruleMatches es r = true ↔
      ∀ p ∈ r, p.1 = "classes" ∨
        lookupKey p.1 es = some (some (ResValue.str p.2))) ∧
    (resolve spec props).classes =
      trimString ((resolveAxes spec props).2 ++
        concatFrags ((getCompound spec).filter fun r =>
          ruleMatches (resolveAxes spec props).1 r && !(ruleClasses r == ""))) ∧
    resolve
        [("base", SpecValue.str "btn"),
         ("size", SpecValue.map [("sm", "text-sm"), ("lg", "text-lg")]),
         ("variant", SpecValue.map [("a", "bg-a"), ("b", "bg-b")]),
         ("compound", SpecValue.arr
           [[("size", "lg"), ("variant", "b"), ("classes", "shadow")]])]
        [("size", PropValue.str "lg"), ("variant", PropValue.str "b")] =
      ⟨"btn text-lg bg-b shadow",
       [("size", some (ResValue.str "lg")), ("variant", some (ResValue.str "b"))]⟩ := by
  have hs : ¬ (lookupKey "resetStyles" props).isSome = true := by
    rw [hnr]
    simp
  refine ⟨?_, ?_, by decide⟩
  · intro es r
    simp [ruleMatches, List.all_eq_true, Bool.or_eq_true]
  · unfold resolve
    rw [if_neg hs]
    show trimString (compoundPass (resolveAxes spec props).1
        (resolveAxes spec props).2 (getCompound spec)) = _
    rw [compoundPass_eq]

/-- Witness for C5 at the claim's example 4 (spec with one compound rule,
selection matching it). -/
theorem claim5_compound_pass_witness :
    (∀ (es : Entries) (r : Rule), ruleMatches es r = true ↔
      ∀ p ∈ r, p.1 = "classes" ∨
        lookupKey p.1 es = some (some (ResValue.str p.2))) ∧
    (resolve
        [("base", SpecValue.str "btn"),
         ("size", SpecValue.map [("sm", "text-sm"), ("lg", "text-lg")]),
         ("variant", SpecValue.map [("a", "bg-a"), ("b", "bg-b")]),
         ("compound", SpecValue.arr
           [[("size", "lg"), ("variant", "b"), ("classes", "shadow")]])]
        [("size", PropValue.str "lg"), ("variant", PropValue.str "b")]).classes =
      trimString ((resolveAxes
          [("base", SpecValue.str "btn"),
           ("size", SpecValue.map [("sm", "text-sm"), ("lg", "text-lg")]),
           ("variant", SpecValue.map [("a", "bg-a"), ("b", "bg-b")]),
           ("compound", SpecValue.arr
             [[("size", "lg"), ("variant", "b"), ("classes", "shadow")]])]
          [("size", PropValue.str "lg"), ("variant", PropValue.str "b")]).2 ++
        concatFrags ((getCompound
            [("base", SpecValue.str "btn"),
             ("size", SpecValue.map [("sm", "text-sm"), ("lg", "text-lg")]),
             ("variant", SpecValue.map [("a", "bg-a"), ("b", "bg-b")]),
             ("compound", SpecValue.arr
               [[("size", "lg"), ("variant", "b"), ("classes", "shadow")]])]).filter
          fun r => ruleMatches (resolveAxes
              [("base", SpecValue.str "btn"),
               ("size", SpecValue.map [("sm", "text-sm"), ("lg", "text-lg")]),
               ("variant", SpecValue.map [("a", "bg-a"), ("b", "bg-b")]),
               ("compound", SpecValue.arr
                 [[("size", "lg"), ("variant", "b"), ("classes", "shadow")]])]
              [("size", PropValue.str "lg"), ("variant", PropValue.str "b")]).1 r &&
            !(ruleClasses r == ""))) ∧
    resolve
        [("base", SpecValue.str "btn"),
         ("size", SpecValue.map [("sm", "text-sm"), ("lg", "text-lg")]),
         ("variant", SpecValue.map [("a", "bg-a"), ("b", "bg-b")]),
         ("compound", SpecValue.arr
           [[("size", "lg"), ("variant", "b"), ("classes", "shadow")]])]
        [("size", PropValue.str "lg"), ("variant", PropValue.str "b")] =
      ⟨"btn text-lg bg-b shadow",
       [("size", some (ResValue.str "lg")), ("variant", some (ResValue.str "b"))]⟩ :=
  claim5_compound_pass
    [("base", SpecValue.str "btn"),
     ("size", SpecValue.map [("sm", "text-sm"), ("lg", "text-lg")]),
     ("variant", SpecValue.map [("a", "bg-a"), ("b", "bg-b")]),
     ("compound", SpecValue.arr
       [[("size", "lg"), ("variant", "b"), ("classes", "shadow")]])]
    [("size", PropValue.str "lg"), ("variant", PropValue.str "b")] (by decide)

end CreateVariants
